import Mathlib

/-!
Shallow embedding of the RørosHetta Sense BLE client codec
(`src/models.py`, `src/client.py`): byte-payload decoders for the
sensor snapshot, day statistics, event log and DCV report, and the
encoders behind `set_light_level` / `set_fan_speed`.

Payloads are lists of byte values (`List Nat`, each element < 256 in
practice); fallible decoders return `Except String` mirroring Python
`ValueError`; floating-point transforms are carried out over `ℚ`.
-/

namespace Safera

/-- One byte of a payload; Python indexing is always guarded by a
length check in the source, so the default 0 is never observable. -/
def byteAt (p : List Nat) (i : Nat) : Nat := p.getD i 0

/-- `int.from_bytes(payload[off:off+2], "little")`.  A short slice in
Python contributes nothing for the missing high byte, which matches
the default-0 read. -/
def u16 (p : List Nat) (off : Nat) : Nat :=
  byteAt p off + 256 * byteAt p (off + 1)

/-- `int.from_bytes(payload[off:off+2], "little", signed=True)`, used
only at in-bounds offsets. -/
def s16 (p : List Nat) (off : Nat) : Int :=
  if u16 p off < 32768 then (u16 p off : Int) else (u16 p off : Int) - 65536

/-- Signed single byte, `int.from_bytes(b, "little", signed=True)` on a
one-byte slice. -/
def s8 (b : Nat) : Int :=
  if b < 128 then (b : Int) else (b : Int) - 256

/-- `int.from_bytes(payload[off:off+4], "little")`. -/
def le32 (p : List Nat) (off : Nat) : Nat :=
  byteAt p off + 256 * byteAt p (off + 1) + 65536 * byteAt p (off + 2) +
    16777216 * byteAt p (off + 3)

/-- `SaferaSensorData` (models.py): decoded main telemetry snapshot. -/
structure SaferaSensorData where
  ambient_temperature : ℚ
  surface_temperature : ℚ
  humidity : ℚ
  ambient_light : ℚ
  mounting_height : Nat
  emf : Nat
  air_quality_index : Nat
  particle_index : ℚ
  voc_uba : ℚ
  co2_ppm : Nat
  tvoc_ppb : Nat
  miu_status : Nat
  voc_status : Nat
  heat_index : Nat
  connected_accessories : Nat
  battery_level : Nat
  seconds_since_ok_press : Nat
  alarm_status : Nat
  tilt_angle : Int
  pitch_angle : Int
  device_state : Nat
  sensor_errors : Nat
  device_clock : Nat
  pcu_errors : Nat
  activity_type : Nat
  alarm_level : Nat
  activity_level : Nat
  power_consumption : Nat
  blec_command : Nat
  pcu_lqi : Int
  pcu_ed : Nat
  fan_speed_raw : Option Nat
  fan_speed_level : Option Nat
  fan_auto : Option Bool
  light_brightness_raw : Option Nat
  light_level : Option Nat
  light_auto : Option Bool
deriving DecidableEq

/-- `SaferaSensorData.from_bytes` (models.py lines 71-125). -/
def SaferaSensorData.from_bytes (payload : List Nat) :
    Except String SaferaSensorData :=
  if payload.length < 54 then
    Except.error "Sensor payload must be 54 bytes."
  else
    Except.ok
      { ambient_temperature := (u16 payload 0 : ℚ) * (1 / 100) - 50
        surface_temperature := (u16 payload 2 : ℚ) * (1 / 100) - 50
        humidity := (u16 payload 4 : ℚ) / 100
        ambient_light := (u16 payload 6 : ℚ) / 32
        mounting_height := byteAt payload 8
        emf := byteAt payload 9
        air_quality_index := u16 payload 10
        particle_index := (u16 payload 12 : ℚ) / 5
        voc_uba := (byteAt payload 14 : ℚ) / 20
        co2_ppm := u16 payload 15
        tvoc_ppb := u16 payload 17
        miu_status := le32 payload 19
        voc_status := byteAt payload 23
        heat_index := byteAt payload 24 * 2
        connected_accessories := byteAt payload 25
        battery_level := byteAt payload 26
        seconds_since_ok_press := byteAt payload 27
        alarm_status := byteAt payload 28
        tilt_angle := s16 payload 29
        pitch_angle := s16 payload 31
        device_state := byteAt payload 33
        sensor_errors := u16 payload 34
        device_clock := le32 payload 36
        pcu_errors := u16 payload 40
        activity_type := byteAt payload 43
        alarm_level := byteAt payload 44
        activity_level := byteAt payload 45
        power_consumption := u16 payload 46
        blec_command := byteAt payload 50
        pcu_lqi := s8 (byteAt payload 51)
        pcu_ed := byteAt payload 52
        fan_speed_raw :=
          if 60 < payload.length then some (byteAt payload 60) else none
        fan_speed_level :=
          if 60 < payload.length ∧
              byteAt payload 60 ∈ ([0, 30, 60, 90, 120] : List Nat) then
            some (byteAt payload 60 / 30)
          else none
        fan_auto :=
          if 63 < payload.length then some (byteAt payload 63 == 30) else none
        light_brightness_raw :=
          if 53 < payload.length then some (byteAt payload 53) else none
        light_level :=
          if 53 < payload.length ∧
              byteAt payload 53 ∈ ([0, 30, 60, 90] : List Nat) then
            some (byteAt payload 53 / 30)
          else none
        light_auto :=
          if 53 < payload.length then some (byteAt payload 53 == 100) else none }

/-- The `fan_speed_raw` field of a successfully decoded snapshot. -/
def decodedFanRaw (p : List Nat) : Option Nat :=
  match SaferaSensorData.from_bytes p with
  | Except.ok d => d.fan_speed_raw
  | Except.error _ => none

/-- The `fan_speed_level` field of a successfully decoded snapshot. -/
def decodedFanLevel (p : List Nat) : Option Nat :=
  match SaferaSensorData.from_bytes p with
  | Except.ok d => d.fan_speed_level
  | Except.error _ => none

/-- The `fan_auto` field of a successfully decoded snapshot. -/
def decodedFanAuto (p : List Nat) : Option Bool :=
  match SaferaSensorData.from_bytes p with
  | Except.ok d => d.fan_auto
  | Except.error _ => none

/-- The `light_level` field of a successfully decoded snapshot. -/
def decodedLightLevel (p : List Nat) : Option Nat :=
  match SaferaSensorData.from_bytes p with
  | Except.ok d => d.light_level
  | Except.error _ => none

/-- The `light_auto` field of a successfully decoded snapshot. -/
def decodedLightAuto (p : List Nat) : Option Bool :=
  match SaferaSensorData.from_bytes p with
  | Except.ok d => d.light_auto
  | Except.error _ => none

/-- `FanSpeed` (models.py): `AUTO` is a bit flag at value 128. -/
inductive FanSpeed where
  | OFF
  | LEVEL_1
  | LEVEL_2
  | LEVEL_3
  | BOOST
  | AUTO
deriving DecidableEq

/-- The `IntEnum` value of each `FanSpeed` member. -/
def fanVal : FanSpeed → Nat
  | FanSpeed.OFF => 0
  | FanSpeed.LEVEL_1 => 1
  | FanSpeed.LEVEL_2 => 2
  | FanSpeed.LEVEL_3 => 3
  | FanSpeed.BOOST => 4
  | FanSpeed.AUTO => 128

/-- `LightLevel` (models.py): `AUTO` is the sentinel 98. -/
inductive LightLevel where
  | OFF
  | LEVEL_1
  | LEVEL_2
  | LEVEL_3
  | AUTO
deriving DecidableEq

/-- The `IntEnum` value of each `LightLevel` member. -/
def lightVal : LightLevel → Nat
  | LightLevel.OFF => 0
  | LightLevel.LEVEL_1 => 1
  | LightLevel.LEVEL_2 => 2
  | LightLevel.LEVEL_3 => 3
  | LightLevel.AUTO => 98

/-- One observable BLE-side effect of a command coroutine: a GATT
write of an 8-byte frame to the command pipe, or an `asyncio.sleep`
(milliseconds). -/
inductive BleAction where
  | write (frame : List Nat)
  | sleep (ms : Nat)
deriving DecidableEq

/-- Result of running a command coroutine against a connected client:
the ordered effect trace, the exception propagated to the caller (if
any), and the messages passed to `logger.error`. -/
structure CmdOutcome where
  actions : List BleAction
  raised : Option String
  errorsLogged : List String
deriving DecidableEq

/-- The frames written by a command, in order. -/
def writtenFrames (o : CmdOutcome) : List (List Nat) :=
  o.actions.filterMap fun a =>
    match a with
    | BleAction.write f => some f
    | BleAction.sleep _ => none

/-- The frame of the unique write of a command that consists of exactly
one action, a write; `none` otherwise. -/
def soleWrittenFrame (o : CmdOutcome) : Option (List Nat) :=
  match o.actions with
  | [BleAction.write f] => some f
  | _ => none

/-- The `intensity_map` dict of `set_light_level` (client.py lines
452-457), as a partial lookup: `none` for a level outside the table. -/
def lightIntensityMap : LightLevel → Option Nat
  | LightLevel.OFF => some 0x00
  | LightLevel.LEVEL_1 => some 0x1E
  | LightLevel.LEVEL_2 => some 0x3C
  | LightLevel.LEVEL_3 => some 0x5A
  | LightLevel.AUTO => none

/-- `SaferaSenseClient.set_light_level` (client.py lines 447-475).  An
unknown level is reported through `logger.error` and the coroutine
returns without writing; a known level writes the single 8-byte frame
`05 20 00 00 intensity 00 00 00`. -/
def set_light_level (level : LightLevel) : CmdOutcome :=
  match lightIntensityMap level with
  | none =>
      { actions := []
        raised := none
        errorsLogged :=
          ["Invalid level. Choose OFF, LEVEL_1, LEVEL_2, or LEVEL_3."] }
  | some intensity =>
      { actions := [BleAction.write [0x05, 0x20, 0x00, 0x00, intensity, 0x00, 0x00, 0x00]]
        raised := none
        errorsLogged := [] }

/-- The `intensity_map` dict of `set_fan_speed` (client.py lines
509-514), keyed by the AUTO-stripped target level. -/
def fanIntensityMap (target : Nat) : Option Nat :=
  if target = 0 then some 0x00
  else if target = 1 then some 0x1E
  else if target = 2 then some 0x3C
  else if target = 3 then some 0x5A
  else none

/-- `SaferaSenseClient.set_fan_speed` (client.py lines 477-525).
`is_auto` tests bit 7 (`level & FanSpeed.AUTO`); `target_level` is the
value with bit 7 cleared (enum values fit in a byte, so `& ~128` is
`& 127`).  AUTO writes one frame; BOOST writes the speed frame, sleeps
0.1 s, then writes the boost frame; normal levels write one frame via
the intensity table. -/
def set_fan_speed (level : FanSpeed) : CmdOutcome :=
  let is_auto := Nat.land (fanVal level) 128 ≠ 0
  let target_level := Nat.land (fanVal level) 127
  if is_auto then
    { actions := [BleAction.write [0x04, 0x20, 0x00, 0x00, 0x02, 0x00, 0x00, 0x00]]
      raised := none
      errorsLogged := [] }
  else if target_level = 4 then
    { actions :=
        [BleAction.write [0x01, 0x20, 0x00, 0x00, 0x78, 0x00, 0x00, 0x00],
         BleAction.sleep 100,
         BleAction.write [0x02, 0x10, 0x00, 0x00, 0x78, 0x00, 0x00, 0x00]]
      raised := none
      errorsLogged := [] }
  else
    match fanIntensityMap target_level with
    | none =>
        { actions := []
          raised := none
          errorsLogged := ["Invalid level " ++ toString target_level] }
    | some intensity =>
        { actions := [BleAction.write [0x01, 0x20, 0x00, 0x00, intensity, 0x00, 0x00, 0x00]]
          raised := none
          errorsLogged := [] }

/-- `DayStatistics` (client.py): per-day aggregate record; mean fields
are nullable (a zero raw 16-bit value means "no data"). -/
structure DayStatistics where
  day_count : Nat
  temp_ambient_mean : Option ℚ
  rh_mean : Option ℚ
  aqi_final_mean : Option Nat
  eco2_mean : Option Nat
  tvoc_mean : Option Nat
  particle_index_mean : Option Nat
  alarm_count : Nat
  cooking_count : Nat
deriving DecidableEq

/-- `DayStatistics.from_bytes` (client.py lines 80-101). -/
def DayStatistics.from_bytes (payload : List Nat) :
    Except String DayStatistics :=
  if payload.length < 16 then
    Except.error "DAY_STATISTICS payload truncated."
  else
    Except.ok
      { day_count := u16 payload 0
        temp_ambient_mean :=
          if u16 payload 2 = 0 then none
          else some ((u16 payload 2 : ℚ) * (1 / 100) - 50)
        rh_mean :=
          if u16 payload 4 = 0 then none else some ((u16 payload 4 : ℚ) / 100)
        aqi_final_mean :=
          if u16 payload 6 = 0 then none else some (u16 payload 6)
        eco2_mean :=
          if u16 payload 8 = 0 then none else some (u16 payload 8)
        tvoc_mean :=
          if u16 payload 10 = 0 then none else some (u16 payload 10)
        particle_index_mean :=
          if u16 payload 12 = 0 then none else some (u16 payload 12)
        alarm_count := byteAt payload 14
        cooking_count := byteAt payload 15 }

/-- `EVENT_TYPE_NAMES.get(event_type, "UNKNOWN")` (client.py lines
23-43). -/
def eventTypeName (t : Int) : String :=
  if t = 1 then "COOKING_START"
  else if t = 2 then "HEATING_START"
  else if t = 3 then "FRYING_START"
  else if t = 4 then "BOILING_START"
  else if t = 5 then "GENERAL_ACTION"
  else if t = 6 then "STEAK_IN"
  else if t = 99 then "INVESTIGATING"
  else if t = 100 then "OK_BUTTON_PRESSED"
  else if t = 101 then "AUX1_BUTTON_PRESSED"
  else if t = 102 then "AUX2_BUTTON_PRESSED"
  else if t = 103 then "MIU_STOVE_ALARM"
  else if t = 104 then "MIU_STOVE_CUTOFF"
  else if t = 105 then "MIU_EXTINGUISH_ALARM"
  else if t = 106 then "MIU_EXTINGUISH_DONE"
  else if t = 107 then "ALARM_RESUMED"
  else if t = -56 then "CURRENT_FLOW_START"
  else if t = -55 then "TEMPERATURE_RISE_START"
  else if t = -2 then "CLOSED_ROUTINE"
  else if t = -1 then "ROUTINE"
  else "UNKNOWN"

/-- `EventLogEntry` (client.py lines 61-66). -/
structure EventLogEntry where
  event_type : Int
  event_name : String
  timestamp : Nat
deriving DecidableEq

/-- The record-consuming loop of `_parse_event_log_payload` (client.py
lines 325-344): read up to `n` 5-byte chunks starting at `offset`,
stopping at the first chunk shorter than 5 bytes. -/
def parseEventRecords (raw : List Nat) (offset : Nat) : Nat → List EventLogEntry
  | 0 => []
  | Nat.succ n =>
      let chunk := (raw.drop offset).take 5
      if chunk.length < 5 then []
      else
        { event_type := s8 (byteAt chunk 0)
          event_name := eventTypeName (s8 (byteAt chunk 0))
          timestamp := le32 chunk 1 } :: parseEventRecords raw (offset + 5) n

/-- `SaferaSenseClient._parse_event_log_payload` (client.py lines
313-345): a little-endian 16-bit count prefix followed by fixed 5-byte
records; total, never raises. -/
def parse_event_log_payload (raw : List Nat) : List EventLogEntry :=
  if raw.length < 2 then []
  else parseEventRecords raw 2 (u16 raw 0)

/-- `DcvEntry` (client.py lines 104-118). -/
structure DcvEntry where
  hub_side_lqi : Int
  hub_side_ed : Nat
  vent_control_final : Nat
  vent_control_auto : Nat
  motor_1_speed : Nat
  stove_guard_alarm : Nat
  aqi : Nat
  activity : Nat
  rht_comfort_level : Nat
  status_flags : Nat
  error_flags : Nat
  sensor_side_lqi : Int
  sensor_side_ed : Nat
deriving DecidableEq

/-- `DcvEntry.from_bytes` (client.py lines 120-138). -/
def DcvEntry.from_bytes (payload : List Nat) : Except String DcvEntry :=
  if payload.length < 15 then
    Except.error "DCV entry truncated."
  else
    Except.ok
      { hub_side_lqi := s8 (byteAt payload 0)
        hub_side_ed := byteAt payload 1
        vent_control_final := byteAt payload 2
        vent_control_auto := byteAt payload 3
        motor_1_speed := byteAt payload 4
        stove_guard_alarm := byteAt payload 5
        aqi := byteAt payload 6
        activity := byteAt payload 7
        rht_comfort_level := byteAt payload 8
        status_flags := u16 payload 9
        error_flags := u16 payload 11
        sensor_side_lqi := s8 (byteAt payload 13)
        sensor_side_ed := byteAt payload 14 }

/-- `DcvReport` (client.py lines 141-146). -/
structure DcvReport where
  data_version : Nat
  entry_count : Nat
  flags : Nat
  entries : List DcvEntry
deriving DecidableEq

/-- The record-consuming loop of `DcvReport.from_bytes` (client.py
lines 155-162): up to `n` 15-byte chunks starting at `offset`, stopping
at the first chunk shorter than 15 bytes; a `DcvEntry.from_bytes`
failure would propagate as a Python exception, hence the `Except`. -/
def parseDcvRecords (payload : List Nat) (offset : Nat) :
    Nat → Except String (List DcvEntry)
  | 0 => Except.ok []
  | Nat.succ n =>
      let chunk := (payload.drop offset).take 15
      if chunk.length < 15 then Except.ok []
      else do
        let e ← DcvEntry.from_bytes chunk
        let rest ← parseDcvRecords payload (offset + 15) n
        pure (e :: rest)

/-- `DcvReport.from_bytes` (client.py lines 148-168). -/
def DcvReport.from_bytes (payload : List Nat) : Except String DcvReport :=
  if payload.length < 4 then
    Except.error "DCV report truncated."
  else do
    let entries ← parseDcvRecords payload 4 (byteAt payload 1)
    pure
      { data_version := byteAt payload 0
        entry_count := byteAt payload 1
        flags := u16 payload 2
        entries := entries }

/-- A 61-byte payload that is all zero except for the fan-speed raw
byte at offset 60: the echo a fan command would produce in the sensor
snapshot. -/
def fanEchoPayload (b : Nat) : List Nat :=
  List.replicate 60 0 ++ [b]

/-- An event-log payload declaring 5 events but carrying only 3 full
5-byte records (2-byte prefix + 15 bytes). -/
def eventLogExample : List Nat := [5, 0] ++ List.replicate 15 1

/-- A DCV report declaring 3 entries but carrying only one full
15-byte record after the 4-byte header. -/
def dcvExample : List Nat := [1, 3, 0, 0] ++ List.replicate 15 0

/-- A 54-byte sensor payload whose light byte (offset 53) carries the
AUTO sentinel 100. -/
def lightAutoExample : List Nat := List.replicate 53 0 ++ [100]

/-! ## Theorems -/

/-- C1: `set_light_level LEVEL_2` writes the single frame
`05 20 00 00 3C 00 00 00`; `set_fan_speed LEVEL_3` writes the single
frame `01 20 00 00 5A 00 00 00`; `set_fan_speed BOOST` writes exactly
two frames, `01 20 00 00 78 00 00 00` then `02 10 00 00 78 00 00 00`,
in that order. -/
theorem fixed_command_vectors :
    (set_light_level LightLevel.LEVEL_2).actions =
      [BleAction.write [0x05, 0x20, 0x00, 0x00, 0x3C, 0x00, 0x00, 0x00]]
    ∧ (set_fan_speed FanSpeed.LEVEL_3).actions =
      [BleAction.write [0x01, 0x20, 0x00, 0x00, 0x5A, 0x00, 0x00, 0x00]]
    ∧ writtenFrames (set_fan_speed FanSpeed.BOOST) =
      [[0x01, 0x20, 0x00, 0x00, 0x78, 0x00, 0x00, 0x00],
       [0x02, 0x10, 0x00, 0x00, 0x78, 0x00, 0x00, 0x00]] := by
  decide

/-- C2: sensor-snapshot decoding rejects every payload shorter than 54
bytes with a decode error and never returns a value; every payload of
length at least 54 decodes to a fully constructed snapshot. -/
theorem sensor_decode_length_gate (p : List Nat) :
    (p.length < 54 →
      SaferaSensorData.from_bytes p =
        Except.error "Sensor payload must be 54 bytes.")
    ∧ (54 ≤ p.length →
      ∃ d, SaferaSensorData.from_bytes p = Except.ok d) := by
  constructor
  · intro h
    rw [SaferaSensorData.from_bytes, if_pos h]
  · intro h
    rw [SaferaSensorData.from_bytes, if_neg (by omega)]
    exact ⟨_, rfl⟩

/-- Witness for C2: the empty payload is rejected with the decode
error, and an all-zero 54-byte payload decodes successfully. -/
theorem sensor_decode_length_gate_witness :
    SaferaSensorData.from_bytes [] =
      Except.error "Sensor payload must be 54 bytes."
    ∧ (SaferaSensorData.from_bytes (List.replicate 54 0)).isOk = true := by
  constructor
  · exact (sensor_decode_length_gate []).1 (by decide)
  · obtain ⟨d, hd⟩ :=
      (sensor_decode_length_gate (List.replicate 54 0)).2 (by decide)
    rw [hd]
    rfl

/-- C3: for every fan level other than BOOST and AUTO, the command is a
single written frame, and feeding its intensity byte (offset 4) back
through the snapshot fan-speed decoding at offset 60 recovers the same
level. -/
theorem fan_level_roundtrip (l : FanSpeed)
    (h1 : l ≠ FanSpeed.BOOST) (h2 : l ≠ FanSpeed.AUTO) :
    (soleWrittenFrame (set_fan_speed l)).map
        (fun f => decodedFanLevel (fanEchoPayload (byteAt f 4))) =
      some (some (fanVal l)) := by
  cases l
  case BOOST => exact absurd rfl h1
  case AUTO => exact absurd rfl h2
  all_goals decide

/-- Witness for C3: the round trip at `LEVEL_2`. -/
theorem fan_level_roundtrip_witness :
    (soleWrittenFrame (set_fan_speed FanSpeed.LEVEL_2)).map
        (fun f => decodedFanLevel (fanEchoPayload (byteAt f 4))) =
      some (some (fanVal FanSpeed.LEVEL_2)) :=
  fan_level_roundtrip FanSpeed.LEVEL_2 (by decide) (by decide)

/-- C4: for every payload long enough to carry the fan byte, the raw
byte at offset 60 is always reported, and it is mapped to a discrete
level (raw / 30) exactly when it is one of the five snap points
0, 30, 60, 90, 120 — otherwise the level is `none`. -/
theorem fan_snap_points (p : List Nat) (h : 60 < p.length) :
    (SaferaSensorData.from_bytes p).isOk = true
    ∧ decodedFanRaw p = some (byteAt p 60)
    ∧ decodedFanLevel p =
      (if byteAt p 60 ∈ ([0, 30, 60, 90, 120] : List Nat) then
        some (byteAt p 60 / 30)
      else none) := by
  have h54 : ¬p.length < 54 := by omega
  refine ⟨?_, ?_, ?_⟩ <;>
    simp [SaferaSensorData.from_bytes, decodedFanRaw, decodedFanLevel,
      Except.isOk, Except.toBool, h54, h]

/-- Witness for C4: the raw value 45 is not a snap point, so it is
reported raw with an unmapped level. -/
theorem fan_snap_points_witness :
    (SaferaSensorData.from_bytes (fanEchoPayload 45)).isOk = true
    ∧ decodedFanRaw (fanEchoPayload 45) = some (byteAt (fanEchoPayload 45) 60)
    ∧ decodedFanLevel (fanEchoPayload 45) =
      (if byteAt (fanEchoPayload 45) 60 ∈ ([0, 30, 60, 90, 120] : List Nat) then
        some (byteAt (fanEchoPayload 45) 60 / 30)
      else none) :=
  fan_snap_points (fanEchoPayload 45) (by decide)

/-- C5 counterexample: `set_light_level` on the out-of-table level AUTO
performs no write, but no error is raised to the caller either — the
coroutine returns normally, so the rejection is not surfaced to the
caller as an error. -/
theorem invalid_light_level_silent_return :
    (set_light_level LightLevel.AUTO).actions = []
    ∧ (set_light_level LightLevel.AUTO).raised = none := by
  decide

/-- C5 (amended): requesting a light level outside the known table
(AUTO) performs no write; the rejection is reported through an
error-level log message, and the coroutine returns normally without
raising an error to the caller. -/
theorem invalid_light_level_logged_no_write :
    (set_light_level LightLevel.AUTO).actions = []
    ∧ (set_light_level LightLevel.AUTO).raised = none
    ∧ (set_light_level LightLevel.AUTO).errorsLogged =
      ["Invalid level. Choose OFF, LEVEL_1, LEVEL_2, or LEVEL_3."] := by
  decide

/-- C6: in every accepted day-statistics payload, each of the six
16-bit mean fields decodes to `none` ("no data") exactly when its raw
little-endian value is zero, and to its (possibly transformed) numeric
value otherwise. -/
theorem day_stats_zero_means_no_data (p : List Nat) (h : 16 ≤ p.length) :
    ∃ d, DayStatistics.from_bytes p = Except.ok d
    ∧ (u16 p 2 = 0 → d.temp_ambient_mean = none)
    ∧ (u16 p 2 ≠ 0 →
        d.temp_ambient_mean = some ((u16 p 2 : ℚ) * (1 / 100) - 50))
    ∧ (u16 p 4 = 0 → d.rh_mean = none)
    ∧ (u16 p 4 ≠ 0 → d.rh_mean = some ((u16 p 4 : ℚ) / 100))
    ∧ (u16 p 6 = 0 → d.aqi_final_mean = none)
    ∧ (u16 p 6 ≠ 0 → d.aqi_final_mean = some (u16 p 6))
    ∧ (u16 p 8 = 0 → d.eco2_mean = none)
    ∧ (u16 p 8 ≠ 0 → d.eco2_mean = some (u16 p 8))
    ∧ (u16 p 10 = 0 → d.tvoc_mean = none)
    ∧ (u16 p 10 ≠ 0 → d.tvoc_mean = some (u16 p 10))
    ∧ (u16 p 12 = 0 → d.particle_index_mean = none)
    ∧ (u16 p 12 ≠ 0 → d.particle_index_mean = some (u16 p 12)) := by
  rw [DayStatistics.from_bytes, if_neg (by omega)]
  refine ⟨_, rfl, ?_, ?_, ?_, ?_, ?_, ?_, ?_, ?_, ?_, ?_, ?_, ?_⟩ <;>
    intro h0 <;> simp [h0]

/-- Witness for C6: an all-zero 16-byte payload decodes, with every
mean field null. -/
theorem day_stats_zero_means_no_data_witness :
    (DayStatistics.from_bytes (List.replicate 16 0)).isOk = true := by
  obtain ⟨d, hd, -⟩ :=
    day_stats_zero_means_no_data (List.replicate 16 0) (by decide)
  rw [hd]
  rfl

/-- The event-record loop yields `min n ((raw.length - offset) / 5)`
entries: one entry per full 5-byte chunk, up to the declared count. -/
theorem parseEventRecords_length (raw : List Nat) :
    ∀ (n offset : Nat),
      (parseEventRecords raw offset n).length =
        min n ((raw.length - offset) / 5) := by
  intro n
  induction n with
  | zero =>
      intro offset
      simp [parseEventRecords]
  | succ n ih =>
      intro offset
      rw [parseEventRecords]
      have hlen : ((raw.drop offset).take 5).length =
          min 5 (raw.length - offset) := by
        simp
      by_cases hc : ((raw.drop offset).take 5).length < 5
      · rw [if_pos hc]
        rw [hlen] at hc
        simp only [List.length_nil]
        omega
      · rw [if_neg hc]
        rw [hlen] at hc
        simp only [List.length_cons, ih (offset + 5)]
        omega

/-- C7: event-log decoding is total — a buffer shorter than 2 bytes
yields the empty list, and otherwise the number of decoded entries is
the declared 16-bit count truncated to the full 5-byte records actually
present after the 2-byte prefix. -/
theorem event_log_truncates (raw : List Nat) :
    (raw.length < 2 → parse_event_log_payload raw = [])
    ∧ (2 ≤ raw.length →
        (parse_event_log_payload raw).length =
          min (u16 raw 0) ((raw.length - 2) / 5)) := by
  constructor
  · intro h
    rw [parse_event_log_payload, if_pos h]
  · intro h
    rw [parse_event_log_payload, if_neg (by omega)]
    exact parseEventRecords_length raw (u16 raw 0) 2

/-- Witness for C7: a one-byte buffer yields no entries, and a buffer
declaring 5 events with only 3 full records yields exactly 3 entries. -/
theorem event_log_truncates_witness :
    parse_event_log_payload [7] = []
    ∧ (parse_event_log_payload eventLogExample).length =
        min (u16 eventLogExample 0) ((eventLogExample.length - 2) / 5)
    ∧ (parse_event_log_payload eventLogExample).length = 3 := by
  refine ⟨(event_log_truncates [7]).1 (by decide),
    (event_log_truncates eventLogExample).2 (by decide), ?_⟩
  decide

/-- The DCV-record loop never fails, and yields
`min n ((payload.length - offset) / 15)` entries. -/
theorem parseDcvRecords_length (payload : List Nat) :
    ∀ (n offset : Nat),
      ∃ l, parseDcvRecords payload offset n = Except.ok l
        ∧ l.length = min n ((payload.length - offset) / 15) := by
  intro n
  induction n with
  | zero =>
      intro offset
      exact ⟨[], rfl, by simp⟩
  | succ n ih =>
      intro offset
      rw [parseDcvRecords]
      have hlen : ((payload.drop offset).take 15).length =
          min 15 (payload.length - offset) := by
        simp
      by_cases hc : ((payload.drop offset).take 15).length < 15
      · rw [if_pos hc]
        rw [hlen] at hc
        exact ⟨[], rfl, by simp only [List.length_nil]; omega⟩
      · rw [if_neg hc]
        obtain ⟨l, hl, hllen⟩ := ih (offset + 15)
        obtain ⟨e, he⟩ : ∃ e,
            DcvEntry.from_bytes ((payload.drop offset).take 15) =
              Except.ok e := by
          rw [DcvEntry.from_bytes, if_neg hc]
          exact ⟨_, rfl⟩
        refine ⟨e :: l, ?_, ?_⟩
        · simp only [he, hl]
          rfl
        · rw [hlen] at hc
          simp only [List.length_cons, hllen]
          omega

/-- C8: DCV-report decoding rejects payloads shorter than the 4-byte
header with a decode error; on longer payloads it succeeds, keeps the
declared entry count, and decodes exactly the whole 15-byte records
present — at most the declared count. -/
theorem dcv_report_truncates (p : List Nat) :
    (p.length < 4 →
      DcvReport.from_bytes p = Except.error "DCV report truncated.")
    ∧ (4 ≤ p.length →
      ∃ r, DcvReport.from_bytes p = Except.ok r
        ∧ r.entry_count = byteAt p 1
        ∧ r.entries.length = min (byteAt p 1) ((p.length - 4) / 15)) := by
  constructor
  · intro h
    rw [DcvReport.from_bytes, if_pos h]
  · intro h
    rw [DcvReport.from_bytes, if_neg (by omega)]
    obtain ⟨l, hl, hllen⟩ := parseDcvRecords_length p (byteAt p 1) 4
    refine ⟨⟨byteAt p 0, byteAt p 1, u16 p 2, l⟩, ?_, rfl, hllen⟩
    simp only [hl]
    rfl

/-- Witness for C8: a 1-byte payload is a decode error, and a report
declaring 3 entries over a single full record decodes to 1 entry. -/
theorem dcv_report_truncates_witness :
    DcvReport.from_bytes [1] = Except.error "DCV report truncated."
    ∧ (DcvReport.from_bytes dcvExample).isOk = true := by
  constructor
  · exact (dcv_report_truncates [1]).1 (by decide)
  · obtain ⟨r, hr, -⟩ := (dcv_report_truncates dcvExample).2 (by decide)
    rw [hr]
    rfl

/-- C9: in every accepted sensor payload, when the decoded `light_auto`
flag is true (the raw byte at offset 53 is the AUTO sentinel 100), the
discrete `light_level` is `none` — AUTO never collides with a mapped
level. -/
theorem light_auto_excludes_level (p : List Nat)
    (h : decodedLightAuto p = some true) :
    decodedLightLevel p = none := by
  by_cases h54 : p.length < 54
  · rw [decodedLightAuto, SaferaSensorData.from_bytes, if_pos h54] at h
    simp at h
  · rw [decodedLightAuto, SaferaSensorData.from_bytes, if_neg h54] at h
    have h53 : 53 < p.length := by omega
    simp only [h53, if_true, Option.some.injEq, beq_iff_eq] at h
    rw [decodedLightLevel, SaferaSensorData.from_bytes, if_neg h54]
    simp [h, h53]

/-- Witness for C9: a 54-byte payload with byte 53 = 100 decodes with
`light_auto = some true` and no discrete light level. -/
theorem light_auto_excludes_level_witness :
    decodedLightLevel lightAutoExample = none :=
  light_auto_excludes_level lightAutoExample (by decide)

/-- C10: every payload of length 54 to 60 decodes successfully with all
three fan fields absent (`none`), since the fan bytes sit at offsets 60
and 63. -/
theorem short_snapshot_has_no_fan_fields (p : List Nat)
    (h1 : 54 ≤ p.length) (h2 : p.length ≤ 60) :
    (SaferaSensorData.from_bytes p).isOk = true
    ∧ decodedFanRaw p = none
    ∧ decodedFanLevel p = none
    ∧ decodedFanAuto p = none := by
  have h54 : ¬p.length < 54 := by omega
  have h60 : ¬60 < p.length := by omega
  have h63 : ¬63 < p.length := by omega
  refine ⟨?_, ?_, ?_, ?_⟩ <;>
    simp [SaferaSensorData.from_bytes, decodedFanRaw, decodedFanLevel,
      decodedFanAuto, Except.isOk, Except.toBool, h54, h60, h63]

/-- Witness for C10: the all-zero 54-byte payload. -/
theorem short_snapshot_has_no_fan_fields_witness :
    (SaferaSensorData.from_bytes (List.replicate 54 0)).isOk = true
    ∧ decodedFanRaw (List.replicate 54 0) = none
    ∧ decodedFanLevel (List.replicate 54 0) = none
    ∧ decodedFanAuto (List.replicate 54 0) = none :=
  short_snapshot_has_no_fan_fields (List.replicate 54 0) (by decide) (by decide)

end Safera
